import Mathlib

/-!
Verification of the SovChain DoS-resilience simulation core
(`src/simulations/dos_resilience.py`, parameters from `src/simulations/config.py`).

The Python code is shallowly embedded: real numbers become `ℚ`, Python ints
become `Nat`/`Int`, dictionaries become association lists, and the seeded
numpy generator (an external collaborator, specified only as a reproducible
source of draws) becomes a `RandomSource`: a family of draw functions indexed
by a running draw counter.  Each call of the Python code to the shared
generator consumes exactly one index, so the order and number of draws is
observable, as required by the reproducibility contract.
-/

/-- `DoSParams` from `config.py` lines 177-193 (fields used by the
DoS-resilience core). -/
structure DoSParams where
  target_tps : ℚ
  tier0_daily_quota : Nat
  tier1_daily_quota : Nat
  rate_limit_per_sec : ℚ
  elevated_threshold : ℚ
  high_threshold : ℚ
  critical_threshold : ℚ
deriving DecidableEq

/-- `DOS_PARAMS = DoSParams()` from `config.py` line 195 with the dataclass
defaults (target 15000 tps, rate limit 5/s, thresholds 0.60 / 0.80 / 0.95). -/
def DOS_PARAMS : DoSParams :=
  { target_tps := 15000
    tier0_daily_quota := 10
    tier1_daily_quota := 50
    rate_limit_per_sec := 5
    elevated_threshold := 3/5
    high_threshold := 4/5
    critical_threshold := 19/20 }

/-- Model of the external seeded generator (`np.random.Generator`).  Every
draw the source code makes reads the function of the matching kind at the
current draw counter; the caller then advances the counter by one.  The five
kinds mirror the five generator methods the core calls: `poisson`,
`integers`, `choice([0,1,2,3], p=...)`, `random`, `normal(0, 50)`. -/
structure RandomSource where
  poisson : Nat → ℚ → Nat
  integers : Nat → Nat → Nat
  choice : Nat → Fin 4
  random : Nat → ℚ
  normal : Nat → ℚ

/-- A fixed concrete `RandomSource` used for concrete evaluations: every
draw returns zero. -/
def zeroSource : RandomSource :=
  { poisson := fun _ _ => 0
    integers := fun _ _ => 0
    choice := fun _ => (0 : Fin 4)
    random := fun _ => 0
    normal := fun _ => 0 }

/-- A small mixing function standing in for the internal state evolution of
the external generator; only reproducibility-for-a-given-seed matters. -/
def mixSeed (seed i : Nat) : Nat :=
  (seed * 2654435761 + i * 40503 + 12345) % 4294967296

/-- `get_rng(seed)` from `config.py` lines 323-325: the external collaborator
is specified only as a reproducible generator for a given seed, so any
deterministic function of the seed models it. -/
def get_rng (seed : Nat) : RandomSource :=
  { poisson := fun i _ => mixSeed seed i % 4
    integers := fun i bound => mixSeed seed i % (max bound 1)
    choice := fun i => ⟨mixSeed seed i % 4, Nat.mod_lt _ (by norm_num)⟩
    random := fun i => (mixSeed seed i % 1024 : ℚ) / 1024
    normal := fun i => ((mixSeed seed i % 201 : ℚ) - 100) / 2 }

/-- Association-list read, modelling `identity in dict` / `dict[identity]`. -/
def getA (key : String) : List (String × ℚ) → Option ℚ
  | [] => none
  | e :: rest => if e.1 = key then some e.2 else getA key rest

/-- Association-list write, modelling `dict[identity] = value`. -/
def setA (key : String) (v : ℚ) : List (String × ℚ) → List (String × ℚ)
  | [] => [(key, v)]
  | e :: rest => if e.1 = key then (key, v) :: rest else e :: setA key v rest

/-- `AdmissionController` state (`dos_resilience.py` lines 87-102).  The
source also initialises `identity_buckets` and `current_load`, but neither is
ever read or written again anywhere in the module, so they are omitted; the
shared `rng` is threaded explicitly as a `RandomSource` plus draw counter. -/
structure AdmissionController where
  capacity_tps : ℚ
  rate_limit : ℚ
  identity_last_access : List (String × ℚ)
deriving DecidableEq

/-- `AdmissionController.__init__` (`dos_resilience.py` lines 87-102): the
body performs assignments only and contains no validation or `raise`, so
construction always succeeds; the `Except` codomain records that no
configuration is ever rejected. -/
def AdmissionController.init (capacity_tps rate_limit_per_sec : ℚ) :
    Except String AdmissionController :=
  .ok { capacity_tps := capacity_tps
        rate_limit := rate_limit_per_sec
        identity_last_access := [] }

/-- The `DoSParams` dataclass constructor (`config.py` lines 177-193): a
plain frozen-free dataclass with no `__post_init__`, so any field values are
accepted. -/
def DoSParams.init (target_tps : ℚ) (tier0 tier1 : Nat)
    (rate_limit_per_sec elevated high critical : ℚ) : Except String DoSParams :=
  .ok { target_tps := target_tps
        tier0_daily_quota := tier0
        tier1_daily_quota := tier1
        rate_limit_per_sec := rate_limit_per_sec
        elevated_threshold := elevated
        high_threshold := high
        critical_threshold := critical }

/-- `AdmissionController.get_congestion_mode` (`dos_resilience.py` lines
104-113).  Thresholds are read from the module-level `DOS_PARAMS`, passed
here explicitly. -/
def get_congestion_mode (p : DoSParams) (load_fraction : ℚ) : String :=
  if load_fraction < p.elevated_threshold then "normal"
  else if load_fraction < p.high_threshold then "elevated"
  else if load_fraction < p.critical_threshold then "high"
  else "critical"

/-- The rate-limit check and state update, `dos_resilience.py` lines 150-159:
reject with `rate_limited` when the identity has a recorded access closer
than `1 / rate_limit`; otherwise record `timestamp` and admit. -/
def rateCheckAdmit (c : AdmissionController) (identity : String)
    (timestamp : ℚ) (k : Nat) :
    (Bool × String) × AdmissionController × Nat :=
  match getA identity c.identity_last_access with
  | some t =>
      if timestamp - t < 1 / c.rate_limit then
        ((false, "rate_limited"), c, k)
      else
        ((true, "admitted"),
         { c with identity_last_access := setA identity timestamp c.identity_last_access }, k)
  | none =>
      ((true, "admitted"),
       { c with identity_last_access := setA identity timestamp c.identity_last_access }, k)

/-- `AdmissionController.admit_transaction` (`dos_resilience.py` lines
115-159).  `k` is the draw counter of the shared generator; only the
elevated-mode throttle consumes a draw. -/
def admit_transaction (p : DoSParams) (o : RandomSource)
    (c : AdmissionController) (identity : String) (tier : Nat)
    (has_fee : Bool) (timestamp : ℚ) (current_load_fraction : ℚ) (k : Nat) :
    (Bool × String) × AdmissionController × Nat :=
  if get_congestion_mode p current_load_fraction = "critical" then
    if tier < 2 ∨ has_fee = false then ((false, "critical_mode_rejection"), c, k)
    else rateCheckAdmit c identity timestamp k
  else if get_congestion_mode p current_load_fraction = "high" then
    if tier = 0 then ((false, "tier0_suspended"), c, k)
    else if has_fee = false then ((false, "fee_required"), c, k)
    else rateCheckAdmit c identity timestamp k
  else if get_congestion_mode p current_load_fraction = "elevated" then
    if tier = 0 ∧ has_fee = false then
      if o.random k < 1/2 then ((false, "tier0_throttled"), c, k + 1)
      else rateCheckAdmit c identity timestamp (k + 1)
    else rateCheckAdmit c identity timestamp k
  else rateCheckAdmit c identity timestamp k

/-- A concrete controller with the default configuration
(`capacity_tps = DOS_PARAMS.target_tps`, `rate_limit = 5`). -/
def defaultController : AdmissionController :=
  { capacity_tps := 15000, rate_limit := 5, identity_last_access := [] }

/-! ### Helper lemmas about the admission controller -/

lemma getA_setA (l : List (String × ℚ)) (key : String) (v : ℚ) :
    getA key (setA key v l) = some v := by
  induction l with
  | nil => simp [setA, getA]
  | cons e rest ih =>
      by_cases h : e.1 = key
      · simp [setA, getA, h]
      · simp [setA, getA, h, ih]

/-- The congestion-mode gate does not read the controller state: for fixed
inputs and draw counter, every controller is either routed to the rate-limit
check at the same counter, or rejected with the same mode reason and its
state untouched. -/
lemma admit_cases (p : DoSParams) (o : RandomSource) (identity : String)
    (tier : Nat) (has_fee : Bool) (ts lf : ℚ) (k : Nat) :
    (∃ kk : Nat, ∀ c : AdmissionController,
        admit_transaction p o c identity tier has_fee ts lf k
          = rateCheckAdmit c identity ts kk)
  ∨ (∃ rr : String, ∃ kk : Nat, rr ≠ "admitted" ∧ rr ≠ "rate_limited" ∧
      ∀ c : AdmissionController,
        admit_transaction p o c identity tier has_fee ts lf k
          = ((false, rr), c, kk)) := by
  by_cases h1 : get_congestion_mode p lf = "critical"
  · by_cases h2 : tier < 2 ∨ has_fee = false
    · exact Or.inr ⟨"critical_mode_rejection", k, by decide, by decide,
        fun c => by unfold admit_transaction; rw [if_pos h1, if_pos h2]⟩
    · exact Or.inl ⟨k,
        fun c => by unfold admit_transaction; rw [if_pos h1, if_neg h2]⟩
  · by_cases h2 : get_congestion_mode p lf = "high"
    · by_cases h3 : tier = 0
      · exact Or.inr ⟨"tier0_suspended", k, by decide, by decide,
          fun c => by
            unfold admit_transaction; rw [if_neg h1, if_pos h2, if_pos h3]⟩
      · by_cases h4 : has_fee = false
        · exact Or.inr ⟨"fee_required", k, by decide, by decide,
            fun c => by
              unfold admit_transaction
              rw [if_neg h1, if_pos h2, if_neg h3, if_pos h4]⟩
        · exact Or.inl ⟨k, fun c => by
            unfold admit_transaction
            rw [if_neg h1, if_pos h2, if_neg h3, if_neg h4]⟩
    · by_cases h3 : get_congestion_mode p lf = "elevated"
      · by_cases h4 : tier = 0 ∧ has_fee = false
        · by_cases h5 : o.random k < 1/2
          · exact Or.inr ⟨"tier0_throttled", k + 1, by decide, by decide,
              fun c => by
                unfold admit_transaction
                rw [if_neg h1, if_neg h2, if_pos h3, if_pos h4, if_pos h5]⟩
          · exact Or.inl ⟨k + 1, fun c => by
              unfold admit_transaction
              rw [if_neg h1, if_neg h2, if_pos h3, if_pos h4, if_neg h5]⟩
        · exact Or.inl ⟨k, fun c => by
            unfold admit_transaction
            rw [if_neg h1, if_neg h2, if_pos h3, if_neg h4]⟩
      · exact Or.inl ⟨k, fun c => by
          unfold admit_transaction; rw [if_neg h1, if_neg h2, if_neg h3]⟩

/-- The rate-limit stage either admits and records the timestamp, or rejects
with `rate_limited` because of a sufficiently recent prior access, leaving
the state untouched. -/
lemma rateCheckAdmit_cases (c : AdmissionController) (identity : String)
    (ts : ℚ) (k : Nat) :
    (rateCheckAdmit c identity ts k
        = ((true, "admitted"),
           { c with identity_last_access := setA identity ts c.identity_last_access }, k))
  ∨ (∃ t, getA identity c.identity_last_access = some t ∧ ts - t < 1 / c.rate_limit ∧
      rateCheckAdmit c identity ts k = ((false, "rate_limited"), c, k)) := by
  unfold rateCheckAdmit
  cases hg : getA identity c.identity_last_access with
  | none => exact Or.inl rfl
  | some t =>
      by_cases hlt : ts - t < 1 / c.rate_limit
      · exact Or.inr ⟨t, rfl, hlt, by simp only [if_pos hlt]⟩
      · exact Or.inl (by simp only [if_neg hlt])

/-- If a call admits, the controller state afterwards is exactly the old
state with `identity ↦ timestamp` recorded. -/
lemma admit_admitted_state (p : DoSParams) (o : RandomSource)
    (c : AdmissionController) (identity : String) (tier : Nat)
    (has_fee : Bool) (ts lf : ℚ) (k : Nat)
    (h : (admit_transaction p o c identity tier has_fee ts lf k).1 = (true, "admitted")) :
    (admit_transaction p o c identity tier has_fee ts lf k).2.1
      = { c with identity_last_access := setA identity ts c.identity_last_access } := by
  rcases admit_cases p o identity tier has_fee ts lf k with ⟨kk, hall⟩ | ⟨rr, kk, _, _, hall⟩
  · rw [hall c] at h ⊢
    rcases rateCheckAdmit_cases c identity ts kk with heq | ⟨t, _, _, heq⟩
    · rw [heq]
    · rw [heq] at h; simp at h
  · rw [hall c] at h; simp at h

lemma get_congestion_mode_critical (p : DoSParams) (lf : ℚ)
    (hinc : p.elevated_threshold < p.high_threshold ∧
            p.high_threshold < p.critical_threshold)
    (hlf : p.critical_threshold ≤ lf) :
    get_congestion_mode p lf = "critical" := by
  have h1 : ¬ lf < p.elevated_threshold := by
    have := hinc.1; have := hinc.2; push_neg; linarith
  have h2 : ¬ lf < p.high_threshold := by
    have := hinc.2; push_neg; linarith
  have h3 : ¬ lf < p.critical_threshold := not_lt.mpr hlf
  unfold get_congestion_mode
  rw [if_neg h1, if_neg h2, if_neg h3]

/-- **C2.** While `load_fraction ≥ critical_threshold` (with strictly
increasing thresholds), any transaction with `tier < 2` or without a fee is
rejected as `critical_mode_rejection`, for every controller state (hence
regardless of rate-limit history), and the controller state and the draw
counter are returned unchanged. -/
theorem critical_mode_gate (p : DoSParams) (o : RandomSource)
    (c : AdmissionController) (identity : String) (tier : Nat)
    (has_fee : Bool) (ts lf : ℚ) (k : Nat)
    (hinc : p.elevated_threshold < p.high_threshold ∧
            p.high_threshold < p.critical_threshold)
    (hlf : p.critical_threshold ≤ lf)
    (hgate : tier < 2 ∨ has_fee = false) :
    admit_transaction p o c identity tier has_fee ts lf k
      = ((false, "critical_mode_rejection"), c, k) := by
  unfold admit_transaction
  rw [get_congestion_mode_critical p lf hinc hlf]
  rw [if_pos rfl, if_pos hgate]

/-- Witness for C2 at a concrete input: default parameters, saturated load,
a tier-0 fee-less transaction. -/
theorem critical_mode_gate_witness :
    (DOS_PARAMS.elevated_threshold < DOS_PARAMS.high_threshold ∧
     DOS_PARAMS.high_threshold < DOS_PARAMS.critical_threshold)
  ∧ DOS_PARAMS.critical_threshold ≤ (1 : ℚ)
  ∧ ((0 : Nat) < 2 ∨ (false = false))
  ∧ admit_transaction DOS_PARAMS zeroSource defaultController "alice" 0 false 0 1 0
      = ((false, "critical_mode_rejection"), defaultController, 0) :=
  ⟨⟨by norm_num [DOS_PARAMS], by norm_num [DOS_PARAMS]⟩, by norm_num [DOS_PARAMS],
   Or.inl (by norm_num),
   critical_mode_gate DOS_PARAMS zeroSource defaultController "alice" 0 false 0 1 0
     ⟨by norm_num [DOS_PARAMS], by norm_num [DOS_PARAMS]⟩ (by norm_num [DOS_PARAMS])
     (Or.inl (by norm_num))⟩

/-- **C6.** `admit_transaction` changes the per-identity map exactly when it
returns `(True, "admitted")`: on admission the map is the old one with
`identity ↦ timestamp` written, and on every rejection the controller is
returned unchanged; moreover the boolean is `true` iff the reason string is
`"admitted"`. -/
theorem admit_state_mutation_iff (p : DoSParams) (o : RandomSource)
    (c : AdmissionController) (identity : String) (tier : Nat)
    (has_fee : Bool) (ts lf : ℚ) (k : Nat) :
    ((admit_transaction p o c identity tier has_fee ts lf k).2.1
       = if (admit_transaction p o c identity tier has_fee ts lf k).1.1
         then { c with identity_last_access := setA identity ts c.identity_last_access }
         else c)
  ∧ ((admit_transaction p o c identity tier has_fee ts lf k).1.1 = true
       ↔ (admit_transaction p o c identity tier has_fee ts lf k).1.2 = "admitted") := by
  rcases admit_cases p o identity tier has_fee ts lf k with ⟨kk, hall⟩ | ⟨rr, kk, hA, _, hall⟩
  · rw [hall c]
    rcases rateCheckAdmit_cases c identity ts kk with heq | ⟨t, _, _, heq⟩
    · rw [heq]; exact ⟨rfl, by simp⟩
    · rw [heq]; exact ⟨by simp, by simp⟩
  · rw [hall c]
    exact ⟨by simp, by simp [hA]⟩

/-- Witness for C6 at a concrete admitted call and a concrete rejected
call. -/
theorem admit_state_mutation_iff_witness :
    ((admit_transaction DOS_PARAMS zeroSource defaultController "a" 3 true 0 0 0).2.1
       = if (admit_transaction DOS_PARAMS zeroSource defaultController "a" 3 true 0 0 0).1.1
         then { defaultController with
                  identity_last_access := setA "a" 0 defaultController.identity_last_access }
         else defaultController)
  ∧ ((admit_transaction DOS_PARAMS zeroSource defaultController "a" 3 true 0 0 0).1.1 = true
       ↔ (admit_transaction DOS_PARAMS zeroSource defaultController "a" 3 true 0 0 0).1.2
           = "admitted") :=
  admit_state_mutation_iff DOS_PARAMS zeroSource defaultController "a" 3 true 0 0 0

/-- **C1, counterexample.**  The claim as stated fails: the congestion-mode
gate runs before the rate-limit check, so a second call for the same identity
within the rate-limit window is NOT rejected with `rate_limited` when its own
`load_fraction`/tier/fee trip a mode rule.  Concretely: identity `"a"` is
admitted at time 0; the second call 0.1 s later (well inside the 0.2 s
rate-limit window) with tier 0, no fee, at saturated load returns
`critical_mode_rejection`, not `rate_limited`. -/
theorem rate_limit_gate_cex :
    (admit_transaction DOS_PARAMS zeroSource defaultController "a" 3 true 0 0 0).1
      = (true, "admitted")
  ∧ ((1 : ℚ)/10 - 0 < 1 / defaultController.rate_limit)
  ∧ (admit_transaction DOS_PARAMS zeroSource
       (admit_transaction DOS_PARAMS zeroSource defaultController "a" 3 true 0 0 0).2.1
       "a" 0 false (1/10) 1 0).1
      = (false, "critical_mode_rejection")
  ∧ (("critical_mode_rejection" : String) == "rate_limited") = false := by
  refine ⟨?_, ?_, ?_, by decide⟩ <;>
    norm_num [admit_transaction, get_congestion_mode, rateCheckAdmit, getA, setA,
      DOS_PARAMS, defaultController]

/-- **C1, amended.**  Two calls for the same identity where the first admits
and the second is *admitted-eligible* (an identical call against a controller
with no recorded access for the identity would be admitted, i.e. it survives
the congestion-mode gate): if the timestamp difference is strictly below
`1 / rate_limit`, the second call returns `(False, "rate_limited")` —
independently of the second call's tier, fee and load fraction subject to
that eligibility. -/
theorem rate_limit_gate_amended (p : DoSParams) (o : RandomSource)
    (c : AdmissionController) (identity : String) (tier1 tier2 : Nat)
    (fee1 fee2 : Bool) (ts1 ts2 lf1 lf2 : ℚ) (k1 k2 : Nat)
    (h1 : (admit_transaction p o c identity tier1 fee1 ts1 lf1 k1).1 = (true, "admitted"))
    (hdt : ts2 - ts1 < 1 / c.rate_limit)
    (helig : (admit_transaction p o
        { capacity_tps := c.capacity_tps, rate_limit := c.rate_limit,
          identity_last_access := [] }
        identity tier2 fee2 ts2 lf2 k2).1 = (true, "admitted")) :
    (admit_transaction p o
        (admit_transaction p o c identity tier1 fee1 ts1 lf1 k1).2.1
        identity tier2 fee2 ts2 lf2 k2).1 = (false, "rate_limited") := by
  have hc1 := admit_admitted_state p o c identity tier1 fee1 ts1 lf1 k1 h1
  rcases admit_cases p o identity tier2 fee2 ts2 lf2 k2 with ⟨kk, hall⟩ | ⟨rr, kk, _, _, hall⟩
  · rw [hall, hc1]
    rw [one_div] at hdt
    simp [rateCheckAdmit, getA_setA, hdt]
  · rw [hall] at helig
    simp at helig

/-- Witness for the amended C1: a concrete pair of calls, the second one at
normal load 0.1 s after the first (the window is 0.2 s). -/
theorem rate_limit_gate_witness :
    (admit_transaction DOS_PARAMS zeroSource defaultController "a" 3 true 0 0 0).1
      = (true, "admitted")
  ∧ ((1 : ℚ)/10 - 0 < 1 / defaultController.rate_limit)
  ∧ (admit_transaction DOS_PARAMS zeroSource
        { capacity_tps := defaultController.capacity_tps,
          rate_limit := defaultController.rate_limit, identity_last_access := [] }
        "a" 2 true (1/10) 0 0).1 = (true, "admitted")
  ∧ (admit_transaction DOS_PARAMS zeroSource
        (admit_transaction DOS_PARAMS zeroSource defaultController "a" 3 true 0 0 0).2.1
        "a" 2 true (1/10) 0 0).1 = (false, "rate_limited") := by
  have e1 : (admit_transaction DOS_PARAMS zeroSource defaultController "a" 3 true 0 0 0).1
      = (true, "admitted") := by
    norm_num [admit_transaction, get_congestion_mode, rateCheckAdmit, getA, setA,
      DOS_PARAMS, defaultController]
  have e2 : ((1 : ℚ)/10 - 0 < 1 / defaultController.rate_limit) := by
    norm_num [defaultController]
  have e3 : (admit_transaction DOS_PARAMS zeroSource
      { capacity_tps := defaultController.capacity_tps,
        rate_limit := defaultController.rate_limit, identity_last_access := [] }
      "a" 2 true (1/10) 0 0).1 = (true, "admitted") := by
    norm_num [admit_transaction, get_congestion_mode, rateCheckAdmit, getA, setA,
      DOS_PARAMS, defaultController]
  exact ⟨e1, e2, e3,
    rate_limit_gate_amended DOS_PARAMS zeroSource defaultController "a" 3 2 true true
      0 (1/10) 0 0 0 0 e1 e2 e3⟩

/-! ### The discrete-event simulator (`dos_resilience.py` lines 162-299) -/

/-- `DoSScenario` (`dos_resilience.py` lines 31-36). -/
structure DoSScenario where
  name : String
  attack_tps : Nat
  description : String
deriving DecidableEq

/-- `DoSResult` (`dos_resilience.py` lines 48-65). -/
structure DoSResult where
  scenario : DoSScenario
  simulation_duration_s : ℚ
  legitimate_offered_tps : ℚ
  attack_offered_tps : ℚ
  legitimate_admitted : Nat
  legitimate_dropped : Nat
  attack_filtered : Nat
  legitimate_p99_ms : ℚ
deriving DecidableEq

/-- `max_queue = 100_000` (`dos_resilience.py` line 218), the mempool
capacity. -/
def max_queue : Int := 100000

/-- Python `int()` applied to a real: truncation toward zero (equals the
floor for non-negative arguments, as in `int(capacity_tps * time_step_s)` on
line 279). -/
def pyInt (q : ℚ) : Int := if 0 ≤ q then ⌊q⌋ else -⌊-q⌋

/-- The mutable state of one `simulate_scenario` run (`dos_resilience.py`
lines 197-218): the controller, the shared draw counter, the statistics
accumulators, the queue and the clock.  The three `*_generated` /
`attack_admitted` fields are instrumentation counters that the source does
not store (they are sums of values the source draws or branches on); they
let conservation statements refer to "the total number of arrivals
generated".  No source-mirrored field ever reads them. -/
structure SimState where
  ctrl : AdmissionController
  k : Nat
  legitimate_admitted : Nat
  legitimate_dropped : Nat
  attack_filtered : Nat
  legitimate_latencies_ms : List ℚ
  queue_depth : Int
  current_time : ℚ
  legit_generated : Nat
  attack_generated : Nat
  attack_admitted : Nat
deriving DecidableEq

/-- Lines 231-233: synthesize one legitimate arrival.  Returns
`(identity, tier, has_fee, next draw counter)`.  The fee draw
`rng.random() < 0.3` is behind a short-circuiting `or`, so it is taken only
when the drawn tier is 0. -/
def drawLegitArrival (o : RandomSource) (k : Nat) : String × Nat × Bool × Nat :=
  let identity := "legit_" ++ toString (o.integers k 1000000)
  let tier := (o.choice (k + 1)).val
  if 0 < tier then (identity, tier, true, k + 2)
  else (identity, tier, decide (o.random (k + 2) < 3/10), k + 3)

/-- Lines 230-257: process one legitimate arrival at the frozen per-step
load fraction `lf` and timestamp `t`.  On admission with queue room the
depth, the admitted count and the recorded latency grow together, the
latency being `max 100 (371 + new_depth / capacity_tps * 1000 + jitter)`
with the jitter consuming one `normal` draw; otherwise the arrival is
dropped. -/
def legitArrivalStep (p : DoSParams) (o : RandomSource) (capacity_tps lf t : ℚ)
    (s : SimState) : SimState :=
  let d := drawLegitArrival o s.k
  let r := admit_transaction p o s.ctrl d.1 d.2.1 d.2.2.1 t lf d.2.2.2
  if r.1.1 then
    if s.queue_depth < max_queue then
      { s with ctrl := r.2.1, k := r.2.2 + 1,
               queue_depth := s.queue_depth + 1,
               legitimate_admitted := s.legitimate_admitted + 1,
               legitimate_latencies_ms := s.legitimate_latencies_ms ++
                 [max 100 (371 + ((s.queue_depth + 1 : Int) : ℚ) / capacity_tps * 1000
                    + o.normal r.2.2)] }
    else
      { s with ctrl := r.2.1, k := r.2.2,
               legitimate_dropped := s.legitimate_dropped + 1 }
  else
    { s with ctrl := r.2.1, k := r.2.2,
             legitimate_dropped := s.legitimate_dropped + 1 }

/-- Lines 259-276: process one attack arrival (fresh pseudo-random identity,
tier 0, no fee).  If admitted, only the queue grows (capped at capacity);
otherwise `attack_filtered` is incremented. -/
def attackArrivalStep (p : DoSParams) (o : RandomSource) (lf t : ℚ)
    (s : SimState) : SimState :=
  let identity := "attack_" ++ toString (o.integers s.k 10000000)
  let r := admit_transaction p o s.ctrl identity 0 false t lf (s.k + 1)
  if r.1.1 then
    { s with ctrl := r.2.1, k := r.2.2,
             queue_depth := min (s.queue_depth + 1) max_queue,
             attack_admitted := s.attack_admitted + 1 }
  else
    { s with ctrl := r.2.1, k := r.2.2,
             attack_filtered := s.attack_filtered + 1 }

/-- Lines 278-280: drain the queue at capacity rate,
`processed = min(queue_depth, int(capacity_tps * time_step_s))`,
`queue_depth = max(0, queue_depth - processed)`. -/
def drainQueue (capacity_tps time_step_s : ℚ) (s : SimState) : SimState :=
  { s with queue_depth := max 0 (s.queue_depth - min s.queue_depth (pyInt (capacity_tps * time_step_s))) }

/-- Lines 226-227: the congestion signal frozen for the whole step,
`min(((queue_depth + n_legit + n_attack) / time_step_s) / capacity_tps, 1)`,
computed from the pre-arrival state. -/
def stepLoadFraction (o : RandomSource) (capacity_tps legit_rate attack_rate time_step_s : ℚ)
    (s : SimState) : ℚ :=
  min ((((s.queue_depth : ℚ) + (o.poisson s.k legit_rate : ℚ)
          + (o.poisson (s.k + 1) attack_rate : ℚ)) / time_step_s) / capacity_tps) 1

/-- One iteration of the `while` loop (lines 220-282): draw the two Poisson
arrival counts, freeze the load fraction, process the legitimate then the
attack arrivals, drain, and advance the clock. -/
def simStep (p : DoSParams) (o : RandomSource)
    (capacity_tps legit_rate attack_rate time_step_s : ℚ) (s : SimState) : SimState :=
  let n_legit := o.poisson s.k legit_rate
  let n_attack := o.poisson (s.k + 1) attack_rate
  let s3 := drainQueue capacity_tps time_step_s
    ((attackArrivalStep p o (stepLoadFraction o capacity_tps legit_rate attack_rate time_step_s s) s.current_time)^[n_attack]
      ((legitArrivalStep p o capacity_tps (stepLoadFraction o capacity_tps legit_rate attack_rate time_step_s s) s.current_time)^[n_legit]
        { s with k := s.k + 2,
                 legit_generated := s.legit_generated + n_legit,
                 attack_generated := s.attack_generated + n_attack }))
  { s3 with current_time := s3.current_time + time_step_s }

/-- The `while current_time < duration_s` loop, made structurally recursive
on a fuel bound; the loop itself exits through the time condition exactly as
the source does whenever the fuel is at least the number of iterations. -/
def simLoop (p : DoSParams) (o : RandomSource)
    (capacity_tps legit_rate attack_rate time_step_s duration_s : ℚ) :
    Nat → SimState → SimState
  | 0, s => s
  | fuel + 1, s =>
      if s.current_time < duration_s then
        simLoop p o capacity_tps legit_rate attack_rate time_step_s duration_s fuel
          (simStep p o capacity_tps legit_rate attack_rate time_step_s s)
      else s

/-- Lines 197-218: the state at the top of the loop — fresh controller
(capacity from the simulator, rate limit from `DOS_PARAMS`), zeroed
statistics, empty queue, time 0. -/
def initState (c : AdmissionController) : SimState :=
  { ctrl := c, k := 0, legitimate_admitted := 0, legitimate_dropped := 0,
    attack_filtered := 0, legitimate_latencies_ms := [], queue_depth := 0,
    current_time := 0, legit_generated := 0, attack_generated := 0,
    attack_admitted := 0 }

/-- Insert into a sorted list (ascending). -/
def insSorted (x : ℚ) : List ℚ → List ℚ
  | [] => [x]
  | y :: ys => if x ≤ y then x :: y :: ys else y :: insSorted x ys

/-- Insertion sort, modelling the sort inside `np.percentile`. -/
def sortQ : List ℚ → List ℚ
  | [] => []
  | x :: xs => insSorted x (sortQ xs)

/-- `np.percentile(xs, 99)` with the default linear-interpolation method:
with `xs` sorted and `n = |xs|`, the value at fractional rank
`h = (n-1) * 99/100` is `xs[⌊h⌋] + (h - ⌊h⌋) * (xs[⌊h⌋+1] - xs[⌊h⌋])`. -/
def percentile99 (xs : List ℚ) : ℚ :=
  let sorted := sortQ xs
  let n := sorted.length
  let h : ℚ := ((n : ℚ) - 1) * 99 / 100
  let i : Nat := (⌊h⌋).toNat
  let lo := sorted.getD i 0
  let hi := sorted.getD (i + 1) lo
  lo + (h - (i : ℚ)) * (hi - lo)

/-- `DoSSimulator.__init__` (`dos_resilience.py` lines 170-178): capacity,
legitimate offered rate, and the seed of the shared generator.  The source
constructor only stores these three values and creates the seeded
generator. -/
structure DoSSimulator where
  capacity_tps : ℚ
  legitimate_tps : ℚ
  seed : Nat
deriving DecidableEq

/-- `DoSSimulator.__init__` also performs no validation. -/
def DoSSimulator.init (capacity_tps legitimate_tps : ℚ) (seed : Nat) :
    Except String DoSSimulator :=
  .ok { capacity_tps := capacity_tps, legitimate_tps := legitimate_tps, seed := seed }

/-- Fuel sufficient for the `while` loop: one unit per time step plus one. -/
def loopFuel (duration_s time_step_s : ℚ) : Nat :=
  (⌈duration_s / time_step_s⌉).toNat + 1

/-- The final `SimState` of `simulate_scenario` (`dos_resilience.py` lines
180-282): fresh controller with `rate_limit = DOS_PARAMS.rate_limit_per_sec`
sharing the simulator's generator, arrival rates `tps * time_step_s`, loop
until `current_time ≥ duration_s`. -/
def DoSSimulator.finalState (sim : DoSSimulator) (scenario : DoSScenario)
    (duration_s time_step_ms : ℚ) : SimState :=
  let o := get_rng sim.seed
  let controller : AdmissionController :=
    { capacity_tps := sim.capacity_tps,
      rate_limit := DOS_PARAMS.rate_limit_per_sec, identity_last_access := [] }
  let time_step_s := time_step_ms / 1000
  simLoop DOS_PARAMS o sim.capacity_tps (sim.legitimate_tps * time_step_s)
    ((scenario.attack_tps : ℚ) * time_step_s) time_step_s duration_s
    (loopFuel duration_s time_step_s) (initState controller)

/-- `DoSSimulator.simulate_scenario` result packaging (`dos_resilience.py`
lines 284-299): the p99 latency is `np.percentile(latencies, 99)` when any
latency was recorded and `0.0` otherwise. -/
def DoSSimulator.simulate_scenario (sim : DoSSimulator) (scenario : DoSScenario)
    (duration_s time_step_ms : ℚ) : DoSResult :=
  let fs := sim.finalState scenario duration_s time_step_ms
  { scenario := scenario
    simulation_duration_s := duration_s
    legitimate_offered_tps := sim.legitimate_tps
    attack_offered_tps := (scenario.attack_tps : ℚ)
    legitimate_admitted := fs.legitimate_admitted
    legitimate_dropped := fs.legitimate_dropped
    attack_filtered := fs.attack_filtered
    legitimate_p99_ms :=
      if fs.legitimate_latencies_ms = [] then 0
      else percentile99 fs.legitimate_latencies_ms }

/-! ### C5: construction never validates its configuration -/

/-- **C5, counterexample.**  An invalid configuration (thresholds in strictly
*decreasing* order, `rate_limit_per_sec = 0`, `capacity_tps = 0`) is accepted
by every constructor: nothing fails fast at construction time, refuting the
claim that invalid configurations are rejected before any simulation step. -/
theorem construction_no_validation_cex :
    DoSParams.init 15000 10 50 0 (19/20) (4/5) (3/5)
      = .ok { target_tps := 15000, tier0_daily_quota := 10, tier1_daily_quota := 50,
              rate_limit_per_sec := 0, elevated_threshold := 19/20,
              high_threshold := 4/5, critical_threshold := 3/5 }
  ∧ AdmissionController.init 0 0
      = .ok { capacity_tps := 0, rate_limit := 0, identity_last_access := [] }
  ∧ DoSSimulator.init 0 0 0
      = .ok { capacity_tps := 0, legitimate_tps := 0, seed := 0 } :=
  ⟨rfl, rfl, rfl⟩

/-- **C5, amended.**  Construction of the parameter object, the admission
controller and the simulator performs no validation whatsoever: every
argument combination (including non-increasing thresholds and non-positive
capacity or rate) constructs successfully, so invalid configurations are not
rejected at construction time. -/
theorem construction_total (target : ℚ) (t0 t1 : Nat)
    (rl e h cr cap legit : ℚ) (seed : Nat) :
    DoSParams.init target t0 t1 rl e h cr
      = .ok { target_tps := target, tier0_daily_quota := t0, tier1_daily_quota := t1,
              rate_limit_per_sec := rl, elevated_threshold := e,
              high_threshold := h, critical_threshold := cr }
  ∧ AdmissionController.init cap rl
      = .ok { capacity_tps := cap, rate_limit := rl, identity_last_access := [] }
  ∧ DoSSimulator.init cap legit seed
      = .ok { capacity_tps := cap, legitimate_tps := legit, seed := seed } :=
  ⟨rfl, rfl, rfl⟩


/-! ### Step-local lemmas and iteration helpers -/

lemma iterate_pres {α : Type} (f : α → α) (P : α → Prop)
    (hf : ∀ a, P a → P (f a)) : ∀ (n : Nat) (a : α), P a → P (f^[n] a) := by
  intro n
  induction n with
  | zero => intro a ha; simpa using ha
  | succ m ih =>
      intro a ha
      rw [Function.iterate_succ_apply]
      exact ih (f a) (hf a ha)

lemma iterate_count {α : Type} (f : α → α) (m : α → Nat)
    (hf : ∀ a, m (f a) = m a + 1) : ∀ (n : Nat) (a : α), m (f^[n] a) = m a + n := by
  intro n
  induction n with
  | zero => intro a; simp
  | succ j ih =>
      intro a
      rw [Function.iterate_succ_apply, ih (f a), hf a]
      omega

lemma iterate_frame {α : Type} {β : Type} (f : α → α) (g : α → β)
    (hf : ∀ a, g (f a) = g a) : ∀ (n : Nat) (a : α), g (f^[n] a) = g a := by
  intro n
  induction n with
  | zero => intro a; simp
  | succ j ih =>
      intro a
      rw [Function.iterate_succ_apply, ih (f a), hf a]

/-- Each legitimate arrival increments exactly one of
`legitimate_admitted` / `legitimate_dropped`. -/
lemma legit_step_sum (p : DoSParams) (o : RandomSource) (cap lf t : ℚ)
    (s : SimState) :
    (legitArrivalStep p o cap lf t s).legitimate_admitted
      + (legitArrivalStep p o cap lf t s).legitimate_dropped
      = s.legitimate_admitted + s.legitimate_dropped + 1 := by
  simp only [legitArrivalStep]
  split_ifs <;> simp <;> omega

/-- A legitimate arrival touches none of the attack counters nor the
generated-arrival instrumentation. -/
lemma legit_step_frame (p : DoSParams) (o : RandomSource) (cap lf t : ℚ)
    (s : SimState) :
    (legitArrivalStep p o cap lf t s).attack_filtered = s.attack_filtered
  ∧ (legitArrivalStep p o cap lf t s).attack_admitted = s.attack_admitted
  ∧ (legitArrivalStep p o cap lf t s).legit_generated = s.legit_generated
  ∧ (legitArrivalStep p o cap lf t s).attack_generated = s.attack_generated
  ∧ (legitArrivalStep p o cap lf t s).current_time = s.current_time := by
  simp only [legitArrivalStep]
  split_ifs <;> exact ⟨rfl, rfl, rfl, rfl, rfl⟩

/-- A legitimate arrival preserves `|latencies| = legitimate_admitted`. -/
lemma legit_step_len (p : DoSParams) (o : RandomSource) (cap lf t : ℚ)
    (s : SimState)
    (h : s.legitimate_latencies_ms.length = s.legitimate_admitted) :
    (legitArrivalStep p o cap lf t s).legitimate_latencies_ms.length
      = (legitArrivalStep p o cap lf t s).legitimate_admitted := by
  simp only [legitArrivalStep]
  split_ifs <;> simp [h]

/-- A legitimate arrival keeps the queue depth within `[0, max_queue]`. -/
lemma legit_step_depth (p : DoSParams) (o : RandomSource) (cap lf t : ℚ)
    (s : SimState)
    (h : 0 ≤ s.queue_depth ∧ s.queue_depth ≤ max_queue) :
    0 ≤ (legitArrivalStep p o cap lf t s).queue_depth
  ∧ (legitArrivalStep p o cap lf t s).queue_depth ≤ max_queue := by
  simp only [legitArrivalStep]
  split_ifs with h1 h2 <;> simp <;> omega

/-- Each attack arrival increments exactly one of `attack_filtered` /
`attack_admitted`. -/
lemma attack_step_sum (p : DoSParams) (o : RandomSource) (lf t : ℚ)
    (s : SimState) :
    (attackArrivalStep p o lf t s).attack_filtered
      + (attackArrivalStep p o lf t s).attack_admitted
      = s.attack_filtered + s.attack_admitted + 1 := by
  simp only [attackArrivalStep]
  split_ifs <;> simp <;> omega

/-- An attack arrival touches no legitimate statistics, no latency record,
and no generated-arrival instrumentation. -/
lemma attack_step_frame (p : DoSParams) (o : RandomSource) (lf t : ℚ)
    (s : SimState) :
    (attackArrivalStep p o lf t s).legitimate_admitted = s.legitimate_admitted
  ∧ (attackArrivalStep p o lf t s).legitimate_dropped = s.legitimate_dropped
  ∧ (attackArrivalStep p o lf t s).legitimate_latencies_ms = s.legitimate_latencies_ms
  ∧ (attackArrivalStep p o lf t s).legit_generated = s.legit_generated
  ∧ (attackArrivalStep p o lf t s).attack_generated = s.attack_generated
  ∧ (attackArrivalStep p o lf t s).current_time = s.current_time := by
  simp only [attackArrivalStep]
  split_ifs <;> exact ⟨rfl, rfl, rfl, rfl, rfl, rfl⟩

/-- An attack arrival either is filtered (queue untouched) or admitted
(queue incremented, capped at capacity). -/
lemma attack_step_cases (p : DoSParams) (o : RandomSource) (lf t : ℚ)
    (s : SimState) :
    ((attackArrivalStep p o lf t s).attack_filtered = s.attack_filtered + 1
      ∧ (attackArrivalStep p o lf t s).attack_admitted = s.attack_admitted
      ∧ (attackArrivalStep p o lf t s).queue_depth = s.queue_depth)
  ∨ ((attackArrivalStep p o lf t s).attack_filtered = s.attack_filtered
      ∧ (attackArrivalStep p o lf t s).attack_admitted = s.attack_admitted + 1
      ∧ (attackArrivalStep p o lf t s).queue_depth = min (s.queue_depth + 1) max_queue) := by
  simp only [attackArrivalStep]
  split_ifs
  · exact Or.inr ⟨rfl, rfl, rfl⟩
  · exact Or.inl ⟨rfl, rfl, rfl⟩

/-- An attack arrival keeps the queue depth within `[0, max_queue]`. -/
lemma attack_step_depth (p : DoSParams) (o : RandomSource) (lf t : ℚ)
    (s : SimState)
    (h : 0 ≤ s.queue_depth ∧ s.queue_depth ≤ max_queue) :
    0 ≤ (attackArrivalStep p o lf t s).queue_depth
  ∧ (attackArrivalStep p o lf t s).queue_depth ≤ max_queue := by
  simp only [attackArrivalStep]
  split_ifs <;> simp [max_queue] at h ⊢ <;> omega

/-- The drain step: the depth decreases by exactly
`min(depth, ⌊capacity_tps * time_step_s⌋)` and never goes below zero. -/
lemma drainQueue_depth (cap ts : ℚ) (s : SimState)
    (hct : 0 ≤ cap * ts) :
    (drainQueue cap ts s).queue_depth
      = s.queue_depth - min s.queue_depth ⌊cap * ts⌋ := by
  simp only [drainQueue, pyInt]
  rw [if_pos hct]
  have h0 : (0 : Int) ≤ ⌊cap * ts⌋ := Int.floor_nonneg.mpr hct
  omega

/-- The drain step keeps the queue depth within `[0, max_queue]`. -/
lemma drainQueue_bounds (cap ts : ℚ) (s : SimState)
    (hct : 0 ≤ cap * ts)
    (h : 0 ≤ s.queue_depth ∧ s.queue_depth ≤ max_queue) :
    0 ≤ (drainQueue cap ts s).queue_depth
  ∧ (drainQueue cap ts s).queue_depth ≤ max_queue := by
  simp only [drainQueue, pyInt]
  rw [if_pos hct]
  have h0 : (0 : Int) ≤ ⌊cap * ts⌋ := Int.floor_nonneg.mpr hct
  simp [max_queue] at h ⊢
  omega

/-- One whole time step preserves the conservation invariant
`legitimate_admitted + legitimate_dropped = legit_generated`. -/
lemma simStep_conservation (p : DoSParams) (o : RandomSource)
    (cap lr ar ts : ℚ) (s : SimState)
    (hs : s.legitimate_admitted + s.legitimate_dropped = s.legit_generated) :
    (simStep p o cap lr ar ts s).legitimate_admitted
      + (simStep p o cap lr ar ts s).legitimate_dropped
      = (simStep p o cap lr ar ts s).legit_generated := by
  simp only [simStep, drainQueue]
  set LF := stepLoadFraction o cap lr ar ts s with hLF
  set nl := o.poisson s.k lr with hnl
  set na := o.poisson (s.k + 1) ar with hna
  set s0 : SimState := { s with k := s.k + 2, legit_generated := s.legit_generated + nl, attack_generated := s.attack_generated + na } with hs0
  set s1 := (legitArrivalStep p o cap LF s.current_time)^[nl] s0 with hs1
  set s2 := (attackArrivalStep p o LF s.current_time)^[na] s1 with hs2
  show s2.legitimate_admitted + s2.legitimate_dropped = s2.legit_generated
  have e1 : s1.legitimate_admitted + s1.legitimate_dropped
      = s0.legitimate_admitted + s0.legitimate_dropped + nl := by
    rw [hs1]
    exact iterate_count _ (fun a => a.legitimate_admitted + a.legitimate_dropped)
      (fun a => legit_step_sum p o cap LF s.current_time a) nl s0
  have e2 : s1.legit_generated = s0.legit_generated := by
    rw [hs1]
    exact iterate_frame _ (fun a => a.legit_generated)
      (fun a => (legit_step_frame p o cap LF s.current_time a).2.2.1) nl s0
  have e3 : s2.legitimate_admitted = s1.legitimate_admitted := by
    rw [hs2]
    exact iterate_frame _ (fun a => a.legitimate_admitted)
      (fun a => (attack_step_frame p o LF s.current_time a).1) na s1
  have e4 : s2.legitimate_dropped = s1.legitimate_dropped := by
    rw [hs2]
    exact iterate_frame _ (fun a => a.legitimate_dropped)
      (fun a => (attack_step_frame p o LF s.current_time a).2.1) na s1
  have e5 : s2.legit_generated = s1.legit_generated := by
    rw [hs2]
    exact iterate_frame _ (fun a => a.legit_generated)
      (fun a => (attack_step_frame p o LF s.current_time a).2.2.2.1) na s1
  have f1 : s0.legitimate_admitted = s.legitimate_admitted := by rw [hs0]
  have f2 : s0.legitimate_dropped = s.legitimate_dropped := by rw [hs0]
  have f3 : s0.legit_generated = s.legit_generated + nl := by rw [hs0]
  omega

/-- One whole time step preserves the attack-accounting invariant
`attack_filtered + attack_admitted = attack_generated`. -/
lemma simStep_attack_accounting (p : DoSParams) (o : RandomSource)
    (cap lr ar ts : ℚ) (s : SimState)
    (hs : s.attack_filtered + s.attack_admitted = s.attack_generated) :
    (simStep p o cap lr ar ts s).attack_filtered
      + (simStep p o cap lr ar ts s).attack_admitted
      = (simStep p o cap lr ar ts s).attack_generated := by
  simp only [simStep, drainQueue]
  set LF := stepLoadFraction o cap lr ar ts s with hLF
  set nl := o.poisson s.k lr with hnl
  set na := o.poisson (s.k + 1) ar with hna
  set s0 : SimState := { s with k := s.k + 2, legit_generated := s.legit_generated + nl, attack_generated := s.attack_generated + na } with hs0
  set s1 := (legitArrivalStep p o cap LF s.current_time)^[nl] s0 with hs1
  set s2 := (attackArrivalStep p o LF s.current_time)^[na] s1 with hs2
  show s2.attack_filtered + s2.attack_admitted = s2.attack_generated
  have e1 : s1.attack_filtered = s0.attack_filtered := by
    rw [hs1]
    exact iterate_frame _ (fun a => a.attack_filtered)
      (fun a => (legit_step_frame p o cap LF s.current_time a).1) nl s0
  have e2 : s1.attack_admitted = s0.attack_admitted := by
    rw [hs1]
    exact iterate_frame _ (fun a => a.attack_admitted)
      (fun a => (legit_step_frame p o cap LF s.current_time a).2.1) nl s0
  have e3 : s1.attack_generated = s0.attack_generated := by
    rw [hs1]
    exact iterate_frame _ (fun a => a.attack_generated)
      (fun a => (legit_step_frame p o cap LF s.current_time a).2.2.2.1) nl s0
  have e4 : s2.attack_filtered + s2.attack_admitted
      = s1.attack_filtered + s1.attack_admitted + na := by
    rw [hs2]
    exact iterate_count _ (fun a => a.attack_filtered + a.attack_admitted)
      (fun a => attack_step_sum p o LF s.current_time a) na s1
  have e5 : s2.attack_generated = s1.attack_generated := by
    rw [hs2]
    exact iterate_frame _ (fun a => a.attack_generated)
      (fun a => (attack_step_frame p o LF s.current_time a).2.2.2.2.1) na s1
  have f1 : s0.attack_filtered = s.attack_filtered := by rw [hs0]
  have f2 : s0.attack_admitted = s.attack_admitted := by rw [hs0]
  have f3 : s0.attack_generated = s.attack_generated + na := by rw [hs0]
  omega

/-- One whole time step preserves
`|legitimate_latencies_ms| = legitimate_admitted`. -/
lemma simStep_len (p : DoSParams) (o : RandomSource)
    (cap lr ar ts : ℚ) (s : SimState)
    (hs : s.legitimate_latencies_ms.length = s.legitimate_admitted) :
    (simStep p o cap lr ar ts s).legitimate_latencies_ms.length
      = (simStep p o cap lr ar ts s).legitimate_admitted := by
  simp only [simStep, drainQueue]
  set LF := stepLoadFraction o cap lr ar ts s with hLF
  set nl := o.poisson s.k lr with hnl
  set na := o.poisson (s.k + 1) ar with hna
  set s0 : SimState := { s with k := s.k + 2, legit_generated := s.legit_generated + nl, attack_generated := s.attack_generated + na } with hs0
  set s1 := (legitArrivalStep p o cap LF s.current_time)^[nl] s0 with hs1
  set s2 := (attackArrivalStep p o LF s.current_time)^[na] s1 with hs2
  show s2.legitimate_latencies_ms.length = s2.legitimate_admitted
  have e1 : s1.legitimate_latencies_ms.length = s1.legitimate_admitted := by
    rw [hs1]
    refine iterate_pres _ (fun a => a.legitimate_latencies_ms.length = a.legitimate_admitted)
      (fun a ha => legit_step_len p o cap LF s.current_time a ha) nl s0 ?_
    rw [hs0]; exact hs
  have e2 : s2.legitimate_latencies_ms = s1.legitimate_latencies_ms := by
    rw [hs2]
    exact iterate_frame _ (fun a => a.legitimate_latencies_ms)
      (fun a => (attack_step_frame p o LF s.current_time a).2.2.1) na s1
  have e3 : s2.legitimate_admitted = s1.legitimate_admitted := by
    rw [hs2]
    exact iterate_frame _ (fun a => a.legitimate_admitted)
      (fun a => (attack_step_frame p o LF s.current_time a).1) na s1
  rw [e2, e3, e1]

/-- One whole time step preserves `0 ≤ queue_depth ≤ max_queue`, provided the
drain amount `capacity_tps * time_step_s` is non-negative. -/
lemma simStep_depth (p : DoSParams) (o : RandomSource)
    (cap lr ar ts : ℚ) (hct : 0 ≤ cap * ts) (s : SimState)
    (hs : 0 ≤ s.queue_depth ∧ s.queue_depth ≤ max_queue) :
    0 ≤ (simStep p o cap lr ar ts s).queue_depth
  ∧ (simStep p o cap lr ar ts s).queue_depth ≤ max_queue := by
  simp only [simStep]
  set LF := stepLoadFraction o cap lr ar ts s with hLF
  set nl := o.poisson s.k lr with hnl
  set na := o.poisson (s.k + 1) ar with hna
  set s0 : SimState := { s with k := s.k + 2, legit_generated := s.legit_generated + nl, attack_generated := s.attack_generated + na } with hs0
  set s1 := (legitArrivalStep p o cap LF s.current_time)^[nl] s0 with hs1
  set s2 := (attackArrivalStep p o LF s.current_time)^[na] s1 with hs2
  show 0 ≤ (drainQueue cap ts s2).queue_depth
    ∧ (drainQueue cap ts s2).queue_depth ≤ max_queue
  refine drainQueue_bounds cap ts s2 hct ?_
  have h1 : 0 ≤ s1.queue_depth ∧ s1.queue_depth ≤ max_queue := by
    rw [hs1]
    refine iterate_pres _ (fun a => 0 ≤ a.queue_depth ∧ a.queue_depth ≤ max_queue)
      (fun a ha => legit_step_depth p o cap LF s.current_time a ha) nl s0 ?_
    rw [hs0]; exact hs
  rw [hs2]
  exact iterate_pres _ (fun a => 0 ≤ a.queue_depth ∧ a.queue_depth ≤ max_queue)
    (fun a ha => attack_step_depth p o LF s.current_time a ha) na s1 h1

/-- The loop preserves any invariant that each step preserves. -/
lemma simLoop_pres (p : DoSParams) (o : RandomSource)
    (cap lr ar ts dur : ℚ) (P : SimState → Prop)
    (hstep : ∀ s, P s → P (simStep p o cap lr ar ts s)) :
    ∀ (fuel : Nat) (s : SimState), P s →
      P (simLoop p o cap lr ar ts dur fuel s) := by
  intro fuel
  induction fuel with
  | zero => intro s h; simpa [simLoop] using h
  | succ n ih =>
      intro s h
      rw [simLoop]
      by_cases hc : s.current_time < dur
      · rw [if_pos hc]
        exact ih _ (hstep s h)
      · rw [if_neg hc]
        exact h

/-! ### Claim theorems about the simulator -/

/-- **C3.**  Queue invariant: each legitimate-arrival enqueue and each attack
enqueue keeps `0 ≤ queue_depth ≤ max_queue` (capacity 100,000); the drain
step removes exactly `min(depth, ⌊capacity_tps * step⌋)` and never goes below
zero; and the whole loop, started from the initial empty queue, keeps the
depth within bounds. -/
theorem queue_depth_invariant (p : DoSParams) (o : RandomSource)
    (cap lr ar ts dur lf t : ℚ) (c : AdmissionController) (fuel : Nat)
    (s : SimState)
    (hct : 0 ≤ cap * ts)
    (hs : 0 ≤ s.queue_depth ∧ s.queue_depth ≤ max_queue) :
    (0 ≤ (legitArrivalStep p o cap lf t s).queue_depth
      ∧ (legitArrivalStep p o cap lf t s).queue_depth ≤ max_queue)
  ∧ (0 ≤ (attackArrivalStep p o lf t s).queue_depth
      ∧ (attackArrivalStep p o lf t s).queue_depth ≤ max_queue)
  ∧ ((drainQueue cap ts s).queue_depth
        = s.queue_depth - min s.queue_depth ⌊cap * ts⌋
      ∧ 0 ≤ (drainQueue cap ts s).queue_depth
      ∧ (drainQueue cap ts s).queue_depth ≤ max_queue)
  ∧ (0 ≤ (simLoop p o cap lr ar ts dur fuel (initState c)).queue_depth
      ∧ (simLoop p o cap lr ar ts dur fuel (initState c)).queue_depth ≤ max_queue) := by
  refine ⟨legit_step_depth p o cap lf t s hs, attack_step_depth p o lf t s hs,
    ⟨drainQueue_depth cap ts s hct, (drainQueue_bounds cap ts s hct hs).1,
     (drainQueue_bounds cap ts s hct hs).2⟩, ?_⟩
  refine simLoop_pres p o cap lr ar ts dur
    (fun a => 0 ≤ a.queue_depth ∧ a.queue_depth ≤ max_queue)
    (fun a ha => simStep_depth p o cap lr ar ts hct a ha) fuel (initState c) ?_
  constructor <;> norm_num [initState, max_queue]

/-- Witness for C3 at a concrete configuration (default capacity 15000 tps,
1 ms steps) and the initial state. -/
theorem queue_depth_invariant_witness :
    (0 ≤ (15000 : ℚ) * (1/1000))
  ∧ (0 ≤ (initState defaultController).queue_depth
      ∧ (initState defaultController).queue_depth ≤ max_queue)
  ∧ ((0 ≤ (legitArrivalStep DOS_PARAMS zeroSource 15000 0 0 (initState defaultController)).queue_depth
      ∧ (legitArrivalStep DOS_PARAMS zeroSource 15000 0 0 (initState defaultController)).queue_depth ≤ max_queue)
     ∧ (0 ≤ (attackArrivalStep DOS_PARAMS zeroSource 0 0 (initState defaultController)).queue_depth
      ∧ (attackArrivalStep DOS_PARAMS zeroSource 0 0 (initState defaultController)).queue_depth ≤ max_queue)
     ∧ ((drainQueue 15000 (1/1000) (initState defaultController)).queue_depth
          = (initState defaultController).queue_depth
            - min (initState defaultController).queue_depth ⌊(15000 : ℚ) * (1/1000)⌋
      ∧ 0 ≤ (drainQueue 15000 (1/1000) (initState defaultController)).queue_depth
      ∧ (drainQueue 15000 (1/1000) (initState defaultController)).queue_depth ≤ max_queue)
     ∧ (0 ≤ (simLoop DOS_PARAMS zeroSource 15000 0 0 (1/1000) 1 1 (initState defaultController)).queue_depth
      ∧ (simLoop DOS_PARAMS zeroSource 15000 0 0 (1/1000) 1 1 (initState defaultController)).queue_depth ≤ max_queue)) := by
  refine ⟨by norm_num, ⟨by norm_num [initState], by norm_num [initState, max_queue]⟩, ?_⟩
  exact queue_depth_invariant DOS_PARAMS zeroSource 15000 0 0 (1/1000) 1 0 0
    defaultController 1 (initState defaultController) (by norm_num)
    ⟨by norm_num [initState], by norm_num [initState, max_queue]⟩

/-- **C4.**  Conservation: over any run,
`legitimate_admitted + legitimate_dropped` equals the total number of
legitimate arrivals generated (the sum of the per-step Poisson draws,
recorded in the instrumentation counter `legit_generated`); every legitimate
arrival increments exactly one of the two counters, the admitted-but-full
case counting as dropped. -/
theorem legitimate_conservation (sim : DoSSimulator) (scenario : DoSScenario)
    (duration_s time_step_ms : ℚ) :
    (sim.simulate_scenario scenario duration_s time_step_ms).legitimate_admitted
      + (sim.simulate_scenario scenario duration_s time_step_ms).legitimate_dropped
      = (sim.finalState scenario duration_s time_step_ms).legit_generated := by
  have h := simLoop_pres DOS_PARAMS (get_rng sim.seed) sim.capacity_tps
    (sim.legitimate_tps * (time_step_ms / 1000))
    ((scenario.attack_tps : ℚ) * (time_step_ms / 1000))
    (time_step_ms / 1000) duration_s
    (fun a => a.legitimate_admitted + a.legitimate_dropped = a.legit_generated)
    (fun a ha => simStep_conservation DOS_PARAMS (get_rng sim.seed) sim.capacity_tps
      (sim.legitimate_tps * (time_step_ms / 1000))
      ((scenario.attack_tps : ℚ) * (time_step_ms / 1000)) (time_step_ms / 1000) a ha)
    (loopFuel duration_s (time_step_ms / 1000))
    (initState { capacity_tps := sim.capacity_tps,
                 rate_limit := DOS_PARAMS.rate_limit_per_sec,
                 identity_last_access := [] })
    (by norm_num [initState])
  exact h

/-- **C10.**  Attack accounting: an attack arrival never touches the
legitimate statistics or the latency record; it either increments
`attack_filtered` leaving the queue unchanged, or is admitted and only
pushes the queue (capped at capacity); consequently over any run
`attack_filtered` plus the number of admitted attack arrivals (the
instrumentation counter `attack_admitted`) equals the total attack arrivals
generated (`attack_generated`). -/
theorem attack_accounting (p : DoSParams) (o : RandomSource) (lf t : ℚ)
    (s : SimState) (sim : DoSSimulator) (scenario : DoSScenario)
    (duration_s time_step_ms : ℚ) :
    ((attackArrivalStep p o lf t s).legitimate_admitted = s.legitimate_admitted
      ∧ (attackArrivalStep p o lf t s).legitimate_dropped = s.legitimate_dropped
      ∧ (attackArrivalStep p o lf t s).legitimate_latencies_ms = s.legitimate_latencies_ms)
  ∧ (((attackArrivalStep p o lf t s).attack_filtered = s.attack_filtered + 1
      ∧ (attackArrivalStep p o lf t s).attack_admitted = s.attack_admitted
      ∧ (attackArrivalStep p o lf t s).queue_depth = s.queue_depth)
     ∨ ((attackArrivalStep p o lf t s).attack_filtered = s.attack_filtered
      ∧ (attackArrivalStep p o lf t s).attack_admitted = s.attack_admitted + 1
      ∧ (attackArrivalStep p o lf t s).queue_depth = min (s.queue_depth + 1) max_queue))
  ∧ ((sim.simulate_scenario scenario duration_s time_step_ms).attack_filtered
      + (sim.finalState scenario duration_s time_step_ms).attack_admitted
      = (sim.finalState scenario duration_s time_step_ms).attack_generated) := by
  refine ⟨⟨(attack_step_frame p o lf t s).1, (attack_step_frame p o lf t s).2.1,
    (attack_step_frame p o lf t s).2.2.1⟩, attack_step_cases p o lf t s, ?_⟩
  have h := simLoop_pres DOS_PARAMS (get_rng sim.seed) sim.capacity_tps
    (sim.legitimate_tps * (time_step_ms / 1000))
    ((scenario.attack_tps : ℚ) * (time_step_ms / 1000))
    (time_step_ms / 1000) duration_s
    (fun a => a.attack_filtered + a.attack_admitted = a.attack_generated)
    (fun a ha => simStep_attack_accounting DOS_PARAMS (get_rng sim.seed) sim.capacity_tps
      (sim.legitimate_tps * (time_step_ms / 1000))
      ((scenario.attack_tps : ℚ) * (time_step_ms / 1000)) (time_step_ms / 1000) a ha)
    (loopFuel duration_s (time_step_ms / 1000))
    (initState { capacity_tps := sim.capacity_tps,
                 rate_limit := DOS_PARAMS.rate_limit_per_sec,
                 identity_last_access := [] })
    (by norm_num [initState])
  exact h

/-- Witness for C10: concrete instantiation at the default configuration and
a zero-draw source. -/
theorem attack_accounting_witness :
    ((attackArrivalStep DOS_PARAMS zeroSource 0 0 (initState defaultController)).legitimate_admitted
        = (initState defaultController).legitimate_admitted
      ∧ (attackArrivalStep DOS_PARAMS zeroSource 0 0 (initState defaultController)).legitimate_dropped
        = (initState defaultController).legitimate_dropped
      ∧ (attackArrivalStep DOS_PARAMS zeroSource 0 0 (initState defaultController)).legitimate_latencies_ms
        = (initState defaultController).legitimate_latencies_ms)
  ∧ (((attackArrivalStep DOS_PARAMS zeroSource 0 0 (initState defaultController)).attack_filtered
        = (initState defaultController).attack_filtered + 1
      ∧ (attackArrivalStep DOS_PARAMS zeroSource 0 0 (initState defaultController)).attack_admitted
        = (initState defaultController).attack_admitted
      ∧ (attackArrivalStep DOS_PARAMS zeroSource 0 0 (initState defaultController)).queue_depth
        = (initState defaultController).queue_depth)
     ∨ ((attackArrivalStep DOS_PARAMS zeroSource 0 0 (initState defaultController)).attack_filtered
        = (initState defaultController).attack_filtered
      ∧ (attackArrivalStep DOS_PARAMS zeroSource 0 0 (initState defaultController)).attack_admitted
        = (initState defaultController).attack_admitted + 1
      ∧ (attackArrivalStep DOS_PARAMS zeroSource 0 0 (initState defaultController)).queue_depth
        = min ((initState defaultController).queue_depth + 1) max_queue))
  ∧ ((DoSSimulator.simulate_scenario ⟨15000, 289, 42⟩ ⟨"Baseline", 0, "no attack"⟩ 1 1).attack_filtered
      + (DoSSimulator.finalState ⟨15000, 289, 42⟩ ⟨"Baseline", 0, "no attack"⟩ 1 1).attack_admitted
      = (DoSSimulator.finalState ⟨15000, 289, 42⟩ ⟨"Baseline", 0, "no attack"⟩ 1 1).attack_generated) :=
  attack_accounting DOS_PARAMS zeroSource 0 0 (initState defaultController)
    ⟨15000, 289, 42⟩ ⟨"Baseline", 0, "no attack"⟩ 1 1

/-- **C7.**  Determinism: two independent runs on freshly constructed,
identically seeded simulators produce identical `DoSResult` values in every
field.  In this embedding every source of nondeterminism was made explicit
(the seeded generator is a function of the seed, the controller is created
inside the run), so a run is a pure function of
(configuration, scenario, seed, duration, step). -/
theorem simulate_deterministic (cap legit : ℚ) (seed : Nat)
    (scenario : DoSScenario) (duration_s time_step_ms : ℚ) :
    DoSSimulator.simulate_scenario
        { capacity_tps := cap, legitimate_tps := legit, seed := seed }
        scenario duration_s time_step_ms
      = DoSSimulator.simulate_scenario
        { capacity_tps := cap, legitimate_tps := legit, seed := seed }
        scenario duration_s time_step_ms := rfl

/-- **C8.**  Degenerate statistics: the reported p99 latency is exactly `0`
when no latency sample was recorded and `percentile99` of the recorded
samples otherwise (the embedding of `np.percentile(·, 99)`); moreover the
number of recorded samples always equals `legitimate_admitted`, so the
zero-samples case is exactly the zero-admitted case.  Everything is a total
function: no exception is possible. -/
theorem p99_degenerate_default (sim : DoSSimulator) (scenario : DoSScenario)
    (duration_s time_step_ms : ℚ) :
    ((sim.finalState scenario duration_s time_step_ms).legitimate_latencies_ms.length
        = (sim.simulate_scenario scenario duration_s time_step_ms).legitimate_admitted)
  ∧ ((sim.simulate_scenario scenario duration_s time_step_ms).legitimate_p99_ms
      = if (sim.finalState scenario duration_s time_step_ms).legitimate_latencies_ms = []
        then 0
        else percentile99 (sim.finalState scenario duration_s time_step_ms).legitimate_latencies_ms) := by
  constructor
  · have h := simLoop_pres DOS_PARAMS (get_rng sim.seed) sim.capacity_tps
      (sim.legitimate_tps * (time_step_ms / 1000))
      ((scenario.attack_tps : ℚ) * (time_step_ms / 1000))
      (time_step_ms / 1000) duration_s
      (fun a => a.legitimate_latencies_ms.length = a.legitimate_admitted)
      (fun a ha => simStep_len DOS_PARAMS (get_rng sim.seed) sim.capacity_tps
        (sim.legitimate_tps * (time_step_ms / 1000))
        ((scenario.attack_tps : ℚ) * (time_step_ms / 1000)) (time_step_ms / 1000) a ha)
      (loopFuel duration_s (time_step_ms / 1000))
      (initState { capacity_tps := sim.capacity_tps,
                   rate_limit := DOS_PARAMS.rate_limit_per_sec,
                   identity_last_access := [] })
      (by norm_num [initState])
    exact h
  · rfl

/-- **C9.**  Per legitimate arrival the identity draw and the tier draw are
always consumed; the fee draw `rng.random() < 0.3` is consumed only when the
drawn tier is 0 (the Python `or` short-circuits), so a tier ≥ 1 arrival has
`has_fee = true` and advances the draw counter by 2 while a tier-0 arrival
advances it by 3. -/
theorem legit_fee_draw_order (o : RandomSource) (k : Nat) :
    (0 < (o.choice (k + 1)).val →
      (drawLegitArrival o k).2.2.1 = true ∧ (drawLegitArrival o k).2.2.2 = k + 2)
  ∧ ((o.choice (k + 1)).val = 0 →
      (drawLegitArrival o k).2.2.1 = decide (o.random (k + 2) < 3/10)
        ∧ (drawLegitArrival o k).2.2.2 = k + 3) := by
  constructor
  · intro h
    simp [drawLegitArrival, h]
  · intro h
    simp [drawLegitArrival, h]

/-- Witness for C9: the zero source draws tier 0, so the fee draw is
consumed and the counter advances by 3. -/
theorem legit_fee_draw_order_witness :
    (zeroSource.choice (0 + 1)).val = 0
  ∧ (drawLegitArrival zeroSource 0).2.2.1 = decide (zeroSource.random (0 + 2) < 3/10)
  ∧ (drawLegitArrival zeroSource 0).2.2.2 = 0 + 3 :=
  ⟨rfl, ((legit_fee_draw_order zeroSource 0).2 rfl).1,
    ((legit_fee_draw_order zeroSource 0).2 rfl).2⟩
